import Mathlib

/-!
Verification of ConsumptionSaving.py (class ConsumptionSavingModel): a
two-period consumption-saving model solved by backward induction and then
simulated on externally supplied wealth draws.

Modelling conventions of the shallow embedding:
- Python floats are idealized as exact real numbers.  Where a claim is about
  Python evaluation succeeding or failing (power of a nonpositive base,
  division by zero), a separate Option-valued evaluation function records
  Python's partiality explicitly.
- scipy.optimize.minimize with method L-BFGS-B on a single scalar variable is
  abstracted as an arbitrary function of (objective, start point, box bounds);
  the one property the development assumes of it is the documented L-BFGS-B
  guarantee that the returned point lies inside the (nonempty) box.
- scipy.interpolate.RegularGridInterpolator on a one-dimensional grid is
  modelled concretely: linear interpolation with the searchsorted-and-clip
  index rule, raising (none) outside the grid range only when bounds_error is
  set, filling with fill_value when one is given, and extrapolating linearly
  from the edge interval when fill_value is None.
- numpy arrays are lists of reals; np.linspace is reproduced exactly.
- The mutable instance attributes set by the constructor (par, sim_m1,
  data_m1) form an explicit state record, and the simulate method reads its
  draws from that state.
-/

namespace ConsumptionSaving

/-- The parameter bundle `par` read by ConsumptionSavingModel: CRRA curvature
rho, bequest strength nu, bequest offset kappa, discount factor beta, return
on savings r, income-risk half-spread Delta, and the two income-state
probabilities. -/
structure Par where
  rho : ℝ
  nu : ℝ
  kappa : ℝ
  beta : ℝ
  r : ℝ
  Delta : ℝ
  P_low : ℝ
  P_high : ℝ

open Classical in
/-- Python float power `c ** e`, idealized over exact reals: defined for a
positive base; for base zero defined only for a nonnegative exponent (`0.0 **
e` with `e < 0` raises ZeroDivisionError, numpy returns inf); for a negative
base defined only for an integer exponent (a fractional exponent yields a
complex number in Python and nan in numpy).  `none` stands for the
failing/non-finite cases; on the defined cases the value agrees with
`Real.rpow`. -/
noncomputable def pyPow (c e : ℝ) : Option ℝ :=
  if 0 < c then some (c ^ e)
  else if c = 0 then (if 0 ≤ e then some (c ^ e) else none)
  else if ∃ n : ℤ, (n : ℝ) = e then some (c ^ e) else none

/-- Python float division `a / b`: raises ZeroDivisionError (numpy: returns a
non-finite inf/nan) when the denominator is zero, modelled as `none`. -/
noncomputable def pyDiv (a b : ℝ) : Option ℝ :=
  if b = 0 then none else some (a / b)

/-- `utility(c) = c**(1-rho)/(1-rho)` (ConsumptionSaving.py line 29),
idealized as a total real-valued function via `Real.rpow`. -/
noncomputable def utility (p : Par) (c : ℝ) : ℝ :=
  c ^ (1 - p.rho) / (1 - p.rho)

/-- `bequest(m, c) = nu*(m-c+kappa)**(1-rho)/(1-rho)` (line 49), idealized as
a total real-valued function. -/
noncomputable def bequest (p : Par) (m c : ℝ) : ℝ :=
  p.nu * (m - c + p.kappa) ^ (1 - p.rho) / (1 - p.rho)

/-- The same `utility(c)` expression, evaluated with Python's partial power
and division: records exactly when line 29 fails (or goes non-finite) rather
than producing a finite float. -/
noncomputable def utilityPy (p : Par) (c : ℝ) : Option ℝ :=
  (pyPow c (1 - p.rho)).bind fun t => pyDiv t (1 - p.rho)

/-- The `bequest(m, c)` expression of line 49 evaluated with Python's partial
power and division. -/
noncomputable def bequestPy (p : Par) (m c : ℝ) : Option ℝ :=
  (pyPow (m - c + p.kappa) (1 - p.rho)).bind fun t => pyDiv (p.nu * t) (1 - p.rho)

/-- `v2(c2, m2) = utility(c2) + bequest(m2, c2)` (line 69): period-2 value of
choice. -/
noncomputable def v2 (p : Par) (c2 m2 : ℝ) : ℝ :=
  utility p c2 + bequest p m2 c2

/-- `v1(c1, m1, v2_interp)` (lines 71-102): period-1 value of choice, the
current utility plus the discounted expected interpolated period-2 value over
the low/high income states. -/
noncomputable def v1 (p : Par) (c1 m1 : ℝ) (v2_interp : ℝ → ℝ) : ℝ :=
  let m2_low := (1 + p.r) * (m1 - c1) + 1 - p.Delta
  let v2_low := v2_interp m2_low
  let m2_high := (1 + p.r) * (m1 - c1) + 1 + p.Delta
  let v2_high := v2_interp m2_high
  let expected_v2 := p.P_low * v2_low + p.P_high * v2_high
  utility p c1 + p.beta * expected_v2

/-- The result object of scipy.optimize.minimize on one scalar variable:
`x` is the returned point and `fval` its recorded objective value (the
attribute called `fun` in scipy, renamed because `fun` is a Lean keyword). -/
structure MinResult where
  x : ℝ
  fval : ℝ

/-- An abstract stand-in for scipy.optimize.minimize(obj, [x0],
method=L-BFGS-B, bounds=((lb, ub),)): any function of the objective, the
start point and the box bounds. -/
abbrev Minimizer : Type :=
  (ℝ → ℝ) → ℝ → ℝ × ℝ → MinResult

/-- The documented L-BFGS-B box-constraint guarantee: on a nonempty box the
returned point lies inside the box. -/
def InBounds (opt : Minimizer) : Prop :=
  ∀ obj x0 lb ub, lb ≤ ub →
    lb ≤ (opt obj x0 (lb, ub)).x ∧ (opt obj x0 (lb, ub)).x ≤ ub

/-- A concrete minimizer satisfying `InBounds`: clamp the start point into the
box and report the objective value there. -/
noncomputable def clampMin : Minimizer :=
  fun obj x0 b => ⟨max b.1 (min x0 b.2), obj (max b.1 (min x0 b.2))⟩

/-- np.linspace(a, b, n): n evenly spaced points from a to b, endpoint
included. -/
noncomputable def linspace (a b : ℝ) (n : ℕ) : List ℝ :=
  (List.range n).map fun i : ℕ => a + (i : ℝ) * (b - a) / ((n : ℝ) - 1)

/-- One iteration of the solve_period_2 grid loop (lines 130-143): minimize
x ↦ -v2(x, m2) over the box [1e-8, m2] starting from m2/2. -/
noncomputable def solve_period_2_point (p : Par) (opt : Minimizer) (m2 : ℝ) : MinResult :=
  opt (fun x => -(v2 p x m2)) (m2 / 2) (1 / 100000000, m2)

/-- solve_period_2 (lines 105-145): the grid m2s = linspace(1e-4, 5, 500) and,
per point, the maximized value -result.fun and the argmax result.x. -/
noncomputable def solve_period_2 (p : Par) (opt : Minimizer) :
    List ℝ × List ℝ × List ℝ :=
  let m2s := linspace (1 / 10000) 5 500
  (m2s,
   m2s.map fun m2 => -(solve_period_2_point p opt m2).fval,
   m2s.map fun m2 => (solve_period_2_point p opt m2).x)

/-- One iteration of the solve_period_1 grid loop (lines 176-190): minimize
x ↦ -v1(x, m1, v2_interp) over the box [1e-12, m1 + (1-Delta)/(1+r)] starting
from m1/2. -/
noncomputable def solve_period_1_point (p : Par) (v2_interp : ℝ → ℝ)
    (opt : Minimizer) (m1 : ℝ) : MinResult :=
  opt (fun x => -(v1 p x m1 v2_interp)) (m1 / 2)
    (1 / 1000000000000, m1 + (1 - p.Delta) / (1 + p.r))

/-- solve_period_1 (lines 148-192): the grid m1s = linspace(1e-8, 4, 100) and,
per point, the maximized value -result.fun and the argmax result.x[0]. -/
noncomputable def solve_period_1 (p : Par) (v2_interp : ℝ → ℝ)
    (opt : Minimizer) : List ℝ × List ℝ × List ℝ :=
  let m1s := linspace (1 / 100000000) 4 100
  (m1s,
   m1s.map fun m1 => -(solve_period_1_point p v2_interp opt m1).fval,
   m1s.map fun m1 => (solve_period_1_point p v2_interp opt m1).x)

open Classical in
/-- One-dimensional linear interpolation with scipy's index rule: the
interval index is searchsorted(xs, q, side=left) - 1 clipped into
[0, len(xs)-2] (natural subtraction supplies the lower clip), so a query
outside the grid range is extrapolated linearly along the edge interval. -/
noncomputable def interpLinear (xs ys : List ℝ) (q : ℝ) : ℝ :=
  let j := min (xs.countP (fun x => decide (x < q)) - 1) (xs.length - 2)
  let x0 := xs.getD j 0
  let x1 := xs.getD (j + 1) 0
  let t := (q - x0) / (x1 - x0)
  ys.getD j 0 * (1 - t) + ys.getD (j + 1) 0 * t

open Classical in
/-- scipy.interpolate.RegularGridInterpolator([xs], ys, bounds_error,
fill_value) evaluated at one scalar query: raises (none) outside the grid
range when bounds_error is set; otherwise fills out-of-range queries with
fill_value when one is given, and with fill_value=None interpolates, and
beyond the range extrapolates, linearly. -/
noncomputable def RegularGridInterpolator (xs ys : List ℝ) (bounds_error : Bool)
    (fill_value : Option ℝ) (q : ℝ) : Option ℝ :=
  let out := q < xs.getD 0 0 ∨ xs.getD (xs.length - 1) 0 < q
  if bounds_error = true ∧ out then none
  else
    match fill_value with
    | some fv => if out then some fv else some (interpLinear xs ys q)
    | none => some (interpLinear xs ys q)

/-- solve (lines 194-228): solve period 2, build the value interpolator over
(m2, v2) with bounds_error=False and fill_value=None, solve period 1 with it,
and return the six arrays in the order (m1, v1, c1, m2, v2, c2). -/
noncomputable def solve (p : Par) (opt : Minimizer) :
    List ℝ × List ℝ × List ℝ × List ℝ × List ℝ × List ℝ :=
  let s2 := solve_period_2 p opt
  let m2s := s2.1
  let v2s := s2.2.1
  let c2s := s2.2.2
  let v2_interp : ℝ → ℝ := fun q =>
    (RegularGridInterpolator m2s v2s false none q).getD 0
  let s1 := solve_period_1 p v2_interp opt
  (s1.1, s1.2.1, s1.2.2, m2s, v2s, c2s)

/-- simulate (lines 230-264) with the draw list made explicit: re-solve the
model, build the policy interpolator over (m1, c1) with bounds_error=False
and fill_value=None, and evaluate it at every draw. -/
noncomputable def simulate (p : Par) (opt : Minimizer) (sim_m1 : List ℝ) : List ℝ :=
  let S := solve p opt
  let m1s := S.1
  let c1s := S.2.2.1
  let c1_interp1 : ℝ → ℝ := fun q =>
    (RegularGridInterpolator m1s c1s false none q).getD 0
  sim_m1.map c1_interp1

/-- The mutable instance state set up by __init__ (lines 8-12): the parameter
bundle and the two list attributes. -/
structure ModelState where
  par : Par
  sim_m1 : List ℝ
  data_m1 : List ℝ

/-- __init__(par): stores par and initializes sim_m1 and data_m1 to empty
lists. -/
def init (p : Par) : ModelState :=
  ⟨p, [], []⟩

/-- The bound method simulate(): takes no draw argument, reads the draws from
the instance attribute sim_m1, and re-runs the full solve at the instance's
current parameters. -/
noncomputable def simulateMethod (s : ModelState) (opt : Minimizer) : List ℝ :=
  simulate s.par opt s.sim_m1

/-! General facts about the embedded numerics used by several claims. -/

/-- linspace produces exactly n points. -/
theorem linspace_length (a b : ℝ) (n : ℕ) : (linspace a b n).length = n := by
  rw [linspace, List.length_map, List.length_range]

/-- The i-th linspace point, for i inside the grid. -/
theorem linspace_getD (a b : ℝ) (n : ℕ) (i : ℕ) (hi : i < n) :
    (linspace a b n).getD i 0 = a + (i : ℝ) * (b - a) / ((n : ℝ) - 1) := by
  rw [linspace, List.getD_eq_getElem?_getD, List.getElem?_map, List.getElem?_range hi]
  rfl

/-- Reading a mapped list at an in-range index applies the map to the grid
point. -/
theorem getD_map_of_lt (f : ℝ → ℝ) (xs : List ℝ) (i : ℕ) (hi : i < xs.length) :
    (xs.map f).getD i 0 = f (xs.getD i 0) := by
  rw [List.getD_eq_getElem?_getD, List.getElem?_map, List.getD_eq_getElem?_getD,
    List.getElem?_eq_getElem hi]
  rfl

/-- Every period-2 grid point is at least the optimizer's lower bound 1e-8. -/
theorem m2grid_lb (i : ℕ) (hi : i < 500) :
    (1 : ℝ) / 100000000 ≤ (linspace (1 / 10000) 5 500).getD i 0 := by
  rw [linspace_getD _ _ _ _ hi]
  have h0 : (0 : ℝ) ≤ (i : ℝ) * (5 - 1 / 10000) / ((500 : ℝ) - 1) := by positivity
  linarith

/-- Every period-1 grid point is at least its left endpoint 1e-8. -/
theorem m1grid_lb (i : ℕ) (hi : i < 100) :
    (1 : ℝ) / 100000000 ≤ (linspace (1 / 100000000) 4 100).getD i 0 := by
  rw [linspace_getD _ _ _ _ hi]
  have h0 : (0 : ℝ) ≤ (i : ℝ) * (4 - 1 / 100000000) / ((100 : ℝ) - 1) := by positivity
  linarith

/-- The clamping minimizer honors its box bounds. -/
theorem clampMin_inBounds : InBounds clampMin := by
  intro obj x0 lb ub h
  refine ⟨le_max_left _ _, max_le h (min_le_right _ _)⟩

/-- Concrete valid parameters: rho=2, nu=0.1, kappa=0.5, beta=0.95, r=0.02,
Delta=0.5, P_low=P_high=0.5 (the end-to-end scenario of the spec). -/
noncomputable def parBase : Par :=
  ⟨2, 1 / 10, 1 / 2, 19 / 20, 1 / 50, 1 / 2, 1 / 2, 1 / 2⟩

/-- Concrete parameters sharing rho, nu, kappa with parBase but differing in
beta, r, Delta, P_low and P_high. -/
noncomputable def parOther : Par :=
  ⟨2, 1 / 10, 1 / 2, 1 / 2, 1 / 10, 0, 3 / 10, 7 / 10⟩

/-- Concrete valid parameters with Delta = 0 and an uneven probability
split. -/
noncomputable def parDeltaZero : Par :=
  ⟨2, 1 / 10, 1 / 2, 19 / 20, 1 / 50, 0, 3 / 10, 7 / 10⟩

/-- Concrete invalid parameters: rho = 1 (the CRRA singularity). -/
noncomputable def parRhoOne : Par :=
  ⟨1, 1 / 10, 1 / 2, 19 / 20, 1 / 50, 1 / 2, 1 / 2, 1 / 2⟩

/-- Claim C1: the period-1 objective v1 evaluates to utility(c1) plus beta
times the P_low/P_high-weighted interpolated values at next-period
cash-on-hand (1+r)*(m1-c1) + (1-Delta) and (1+r)*(m1-c1) + (1+Delta). -/
theorem v1_objective_formula (p : Par) (c1 m1 : ℝ) (v2_interp : ℝ → ℝ) :
    v1 p c1 m1 v2_interp =
      utility p c1 + p.beta *
        (p.P_low * v2_interp ((1 + p.r) * (m1 - c1) + (1 - p.Delta)) +
         p.P_high * v2_interp ((1 + p.r) * (m1 - c1) + (1 + p.Delta))) := by
  show utility p c1 + p.beta *
      (p.P_low * v2_interp ((1 + p.r) * (m1 - c1) + 1 - p.Delta) +
       p.P_high * v2_interp ((1 + p.r) * (m1 - c1) + 1 + p.Delta)) = _
  rw [add_sub_assoc, add_assoc]

/-- Claim C6: with Delta = 0 and probabilities summing to one, the two income
branches of v1 coincide and the objective collapses to
utility(c1) + beta * V2((1+r)*(m1-c1) + 1), independently of the P_low/P_high
split. -/
theorem v1_delta_zero_collapse (p : Par) (c1 m1 : ℝ) (v2_interp : ℝ → ℝ)
    (hD : p.Delta = 0) (hP : p.P_low + p.P_high = 1) :
    v1 p c1 m1 v2_interp =
      utility p c1 + p.beta * v2_interp ((1 + p.r) * (m1 - c1) + 1) := by
  show utility p c1 + p.beta *
      (p.P_low * v2_interp ((1 + p.r) * (m1 - c1) + 1 - p.Delta) +
       p.P_high * v2_interp ((1 + p.r) * (m1 - c1) + 1 + p.Delta)) = _
  rw [hD, sub_zero, add_zero, ← add_mul, hP, one_mul]

/-- Witness for C6: a concrete instance with Delta = 0, P_low = 0.3,
P_high = 0.7, the identity as interpolator, c1 = 1 and m1 = 2. -/
theorem v1_delta_zero_collapse_witness :
    v1 parDeltaZero 1 2 id =
      utility parDeltaZero 1 + parDeltaZero.beta * id ((1 + parDeltaZero.r) * (2 - 1) + 1) :=
  v1_delta_zero_collapse parDeltaZero 1 2 id rfl (by norm_num [parDeltaZero])

/-- Claim C8: simulate maps the policy interpolant over (m1 grid, c1 grid) of
the fresh solve across the draw list, one output per draw in input order; in
particular the draws [1, 2, 3] produce exactly 3 values. -/
theorem simulate_maps_draws (p : Par) (opt : Minimizer) (draws : List ℝ) :
    simulate p opt draws =
      draws.map (fun q =>
        (RegularGridInterpolator (solve p opt).1 (solve p opt).2.2.1 false none q).getD 0) ∧
    (simulate p opt draws).length = draws.length ∧
    (simulate p opt [1, 2, 3]).length = 3 := by
  refine ⟨rfl, ?_, ?_⟩ <;> simp [simulate]

/-- Claim C10: __init__ sets sim_m1 to the empty list, so simulate() on a
fresh instance returns 0 values; and simulate() reads its draws from the
instance state and re-runs the full solve at the instance's parameters on
every call, caching nothing. -/
theorem simulate_reads_state (p : Par) (opt : Minimizer) (s : ModelState) :
    (init p).sim_m1 = [] ∧
    simulateMethod (init p) opt = [] ∧
    simulateMethod s opt =
      s.sim_m1.map (fun q =>
        (RegularGridInterpolator (solve s.par opt).1 (solve s.par opt).2.2.1 false none q).getD 0) :=
  ⟨rfl, rfl, rfl⟩

/-- Claim C2 (amended): for c > 0 and rho ≠ 1 the utility evaluation succeeds
with exactly c^(1-rho)/(1-rho); for m - c + kappa > 0 the bequest evaluation
succeeds with exactly nu*(m-c+kappa)^(1-rho)/(1-rho); utility fails at c = 0
when rho > 1 (zero raised to a negative power) and at c < 0 when 1-rho is not
an integer (complex power); but not for every c ≤ 0, see the
counterexample. -/
theorem utility_bequest_formulas (p : Par) (c m : ℝ) (hrho : p.rho ≠ 1) :
    (0 < c → utilityPy p c = some (c ^ (1 - p.rho) / (1 - p.rho)) ∧
      utility p c = c ^ (1 - p.rho) / (1 - p.rho)) ∧
    (0 < m - c + p.kappa →
      bequestPy p m c = some (p.nu * (m - c + p.kappa) ^ (1 - p.rho) / (1 - p.rho)) ∧
      bequest p m c = p.nu * (m - c + p.kappa) ^ (1 - p.rho) / (1 - p.rho)) ∧
    (1 < p.rho → utilityPy p 0 = none) ∧
    (c < 0 → (¬ ∃ n : ℤ, (n : ℝ) = 1 - p.rho) → utilityPy p c = none) := by
  have hne : 1 - p.rho ≠ 0 := sub_ne_zero_of_ne (Ne.symm hrho)
  refine ⟨fun hc => ?_, fun hm => ?_, fun h1 => ?_, fun hc hn => ?_⟩
  · exact ⟨by simp [utilityPy, pyPow, pyDiv, hc, hne], rfl⟩
  · exact ⟨by simp [bequestPy, pyPow, pyDiv, hm, hne], rfl⟩
  · have h2 : ¬ (0 : ℝ) ≤ 1 - p.rho := by linarith
    simp [utilityPy, pyPow, h2]
  · simp [utilityPy, pyPow, hc.not_lt, hc.ne, hn]

/-- Witness for C2: at rho = 2 and c = 1 the utility evaluation succeeds with
the CRRA formula value. -/
theorem utility_bequest_formulas_witness :
    utilityPy parBase 1 = some ((1 : ℝ) ^ (1 - parBase.rho) / (1 - parBase.rho)) :=
  ((utility_bequest_formulas parBase 1 1 (by norm_num [parBase])).1 (by norm_num)).1

/-- Counterexample to C2 as stated: with the valid parameter rho = 2 and the
nonpositive consumption c = -1, Python evaluates (-1.0)**(-1.0)/(1-2) to the
finite, well-defined value 1.0 (a negative base with an integer exponent does
not fail), so utility neither fails nor returns a non-finite value there. -/
theorem utility_negative_consumption_defined :
    utilityPy parBase (-1) = some 1 ∧ parBase.rho ≠ 1 ∧ ((-1 : ℝ) ≤ 0) := by
  refine ⟨?_, by norm_num [parBase], by norm_num⟩
  have hrho : parBase.rho = 2 := rfl
  have hex : ∃ n : ℤ, (n : ℝ) = 1 - parBase.rho := ⟨-1, by rw [hrho]; norm_num⟩
  have hpow : (-1 : ℝ) ^ (1 - parBase.rho) = -1 := by
    rw [hrho, show (1 : ℝ) - 2 = ((-1 : ℤ) : ℝ) by norm_num, Real.rpow_intCast]
    norm_num
  have hval : pyPow (-1) (1 - parBase.rho) = some (-1) := by
    rw [pyPow, if_neg (by norm_num), if_neg (by norm_num), if_pos hex, hpow]
  rw [utilityPy, hval]
  show pyDiv (-1) (1 - parBase.rho) = some 1
  rw [hrho, pyDiv, if_neg (by norm_num)]
  norm_num

set_option maxRecDepth 4000 in
/-- Claim C4 (the code lacks the validation the spec requires): with the
invalid parameter rho = 1 the solver performs no entry validation at all:
solve proceeds through the complete 500-point and 100-point grid sweeps,
while every utility evaluation inside the sweep divides by 1 - rho = 0, so
the singularity is met mid-solve instead of being reported as a configuration
error at entry. -/
theorem no_validation_rho_one :
    (solve parRhoOne clampMin).2.2.2.1.length = 500 ∧
    (solve parRhoOne clampMin).1.length = 100 ∧
    (∀ c : ℝ, utilityPy parRhoOne c = none) := by
  refine ⟨?_, ?_, fun c => ?_⟩
  · show (linspace (1 / 10000) 5 500).length = 500
    exact linspace_length _ _ _
  · show (linspace (1 / 100000000) 4 100).length = 100
    exact linspace_length _ _ _
  · have h0 : (1 : ℝ) - parRhoOne.rho = 0 := by norm_num [parRhoOne]
    rw [utilityPy, h0]
    cases pyPow c 0 <;> simp [pyDiv]

set_option maxRecDepth 4000 in
/-- Claim C5: solve runs the period-2 solver, builds the value interpolator
over its (m2, v2) output with bounds_error=False and fill_value=None, runs
the period-1 solver with it, and returns the six arrays in the order
(m1, v1, c1, m2, v2, c2), nonempty and equal-length-paired (100 for period 1,
500 for period 2). -/
theorem solve_pipeline (p : Par) (opt : Minimizer) :
    solve p opt =
      ((solve_period_1 p (fun q => (RegularGridInterpolator (solve_period_2 p opt).1
          (solve_period_2 p opt).2.1 false none q).getD 0) opt).1,
       (solve_period_1 p (fun q => (RegularGridInterpolator (solve_period_2 p opt).1
          (solve_period_2 p opt).2.1 false none q).getD 0) opt).2.1,
       (solve_period_1 p (fun q => (RegularGridInterpolator (solve_period_2 p opt).1
          (solve_period_2 p opt).2.1 false none q).getD 0) opt).2.2,
       (solve_period_2 p opt).1, (solve_period_2 p opt).2.1, (solve_period_2 p opt).2.2) ∧
    (solve p opt).1.length = 100 ∧ (solve p opt).2.1.length = 100 ∧
    (solve p opt).2.2.1.length = 100 ∧ (solve p opt).2.2.2.1.length = 500 ∧
    (solve p opt).2.2.2.2.1.length = 500 ∧ (solve p opt).2.2.2.2.2.length = 500 ∧
    (solve p opt).1 ≠ [] ∧ (solve p opt).2.2.2.1 ≠ [] := by
  have l1 : (solve p opt).1.length = 100 := by
    show (linspace (1 / 100000000) 4 100).length = 100
    exact linspace_length _ _ _
  have l2 : (solve p opt).2.2.2.1.length = 500 := by
    show (linspace (1 / 10000) 5 500).length = 500
    exact linspace_length _ _ _
  refine ⟨rfl, l1, ?_, ?_, l2, ?_, ?_, ?_, ?_⟩
  · show ((linspace (1 / 100000000) 4 100).map _).length = 100
    rw [List.length_map, linspace_length]
  · show ((linspace (1 / 100000000) 4 100).map _).length = 100
    rw [List.length_map, linspace_length]
  · show ((linspace (1 / 10000) 5 500).map _).length = 500
    rw [List.length_map, linspace_length]
  · show ((linspace (1 / 10000) 5 500).map _).length = 500
    rw [List.length_map, linspace_length]
  · exact List.ne_nil_of_length_pos (by rw [l1]; norm_num)
  · exact List.ne_nil_of_length_pos (by rw [l2]; norm_num)

/-- Claim C7: the interpolators built by solve and simulate (bounds_error =
False, fill_value = None) never raise: at any query outside the solved grid
range (the period-2 grid spans [1e-4, 5], the period-1 grid [1e-8, 4]) they
return the linearly extrapolated value. -/
theorem interp_extrapolates (p : Par) (opt : Minimizer) (q1 q2 : ℝ)
    (hq1 : q1 < 1 / 10000 ∨ 5 < q1) (hq2 : q2 < 1 / 100000000 ∨ 4 < q2) :
    RegularGridInterpolator (solve p opt).2.2.2.1 (solve p opt).2.2.2.2.1 false none q1
      = some (interpLinear (solve p opt).2.2.2.1 (solve p opt).2.2.2.2.1 q1) ∧
    RegularGridInterpolator (solve p opt).1 (solve p opt).2.2.1 false none q2
      = some (interpLinear (solve p opt).1 (solve p opt).2.2.1 q2) := by
  constructor <;>
    · rw [RegularGridInterpolator]
      simp

/-- Witness for C7: queries 6 (beyond both grid maxima 5 and 4 would use 6
and -1 below both minima) evaluated on the concrete solved model. -/
theorem interp_extrapolates_witness :
    RegularGridInterpolator (solve parBase clampMin).2.2.2.1
        (solve parBase clampMin).2.2.2.2.1 false none 6
      = some (interpLinear (solve parBase clampMin).2.2.2.1
        (solve parBase clampMin).2.2.2.2.1 6) ∧
    RegularGridInterpolator (solve parBase clampMin).1
        (solve parBase clampMin).2.2.1 false none (-1)
      = some (interpLinear (solve parBase clampMin).1
        (solve parBase clampMin).2.2.1 (-1)) :=
  interp_extrapolates parBase clampMin 6 (-1) (by norm_num) (by norm_num)

/-- Claim C9: the period-2 solve reads only the preference and bequest
parameters rho, nu and kappa: two bundles agreeing on them produce identical
(m2s, v2s, c2s) under any minimizer, whatever their beta, r, Delta, P_low and
P_high. -/
theorem solve_period_2_depends_only_on_preferences (p1 p2 : Par) (opt : Minimizer)
    (hrho : p1.rho = p2.rho) (hnu : p1.nu = p2.nu) (hk : p1.kappa = p2.kappa) :
    solve_period_2 p1 opt = solve_period_2 p2 opt := by
  have hpt : solve_period_2_point p1 opt = solve_period_2_point p2 opt := by
    funext m
    rw [solve_period_2_point, solve_period_2_point]
    congr 1
    funext x
    rw [v2, v2, utility, utility, bequest, bequest, hrho, hnu, hk]
  rw [solve_period_2, solve_period_2, hpt]

/-- Witness for C9: parBase and parOther share rho = 2, nu = 0.1, kappa = 0.5
and differ in beta, r, Delta, P_low and P_high, yet period 2 solves
identically. -/
theorem solve_period_2_depends_only_witness :
    solve_period_2 parBase clampMin = solve_period_2 parOther clampMin :=
  solve_period_2_depends_only_on_preferences parBase parOther clampMin rfl rfl rfl

set_option maxRecDepth 8000 in
/-- Feasibility of the stored period-2 consumption: an in-bounds minimizer
keeps every c2s entry inside (0, m2s entry]. -/
theorem solve_period_2_c_feasible (p : Par) (opt : Minimizer) (hopt : InBounds opt)
    (i : ℕ) (hi : i < 500) :
    0 < (solve_period_2 p opt).2.2.getD i 0 ∧
    (solve_period_2 p opt).2.2.getD i 0 ≤ (solve_period_2 p opt).1.getD i 0 := by
  have hlen : i < (linspace (1 / 10000) 5 500).length := by
    rw [linspace_length]; exact hi
  have e2 : (solve_period_2 p opt).2.2.getD i 0
      = (solve_period_2_point p opt ((linspace (1 / 10000) 5 500).getD i 0)).x := by
    show ((linspace (1 / 10000) 5 500).map
        (fun m2 => (solve_period_2_point p opt m2).x)).getD i 0 = _
    exact getD_map_of_lt _ _ _ hlen
  have e1 : (solve_period_2 p opt).1 = linspace (1 / 10000) 5 500 := rfl
  rw [e2, e1]
  have hlb : (1 : ℝ) / 100000000 ≤ (linspace (1 / 10000) 5 500).getD i 0 :=
    m2grid_lb i hi
  have hb := hopt (fun x => -(v2 p x ((linspace (1 / 10000) 5 500).getD i 0)))
    (((linspace (1 / 10000) 5 500).getD i 0) / 2) (1 / 100000000)
    ((linspace (1 / 10000) 5 500).getD i 0) hlb
  exact ⟨lt_of_lt_of_le (by norm_num) hb.1, hb.2⟩

set_option maxRecDepth 8000 in
/-- Feasibility of the stored period-1 consumption: with Delta ≤ 1 and
r > -1 the box is nonempty, and an in-bounds minimizer keeps every c1s entry
inside (0, m1s entry + (1-Delta)/(1+r)]. -/
theorem solve_period_1_c_feasible (p : Par) (v2_interp : ℝ → ℝ) (opt : Minimizer)
    (hopt : InBounds opt) (hD1 : p.Delta ≤ 1) (hr : -1 < p.r)
    (i : ℕ) (hi : i < 100) :
    0 < (solve_period_1 p v2_interp opt).2.2.getD i 0 ∧
    (solve_period_1 p v2_interp opt).2.2.getD i 0 ≤
      (solve_period_1 p v2_interp opt).1.getD i 0 + (1 - p.Delta) / (1 + p.r) := by
  have hlen : i < (linspace (1 / 100000000) 4 100).length := by
    rw [linspace_length]; exact hi
  have e2 : (solve_period_1 p v2_interp opt).2.2.getD i 0
      = (solve_period_1_point p v2_interp opt
          ((linspace (1 / 100000000) 4 100).getD i 0)).x := by
    show ((linspace (1 / 100000000) 4 100).map
        (fun m1 => (solve_period_1_point p v2_interp opt m1).x)).getD i 0 = _
    exact getD_map_of_lt _ _ _ hlen
  have e1 : (solve_period_1 p v2_interp opt).1 = linspace (1 / 100000000) 4 100 := rfl
  rw [e2, e1]
  have hm1 : (1 : ℝ) / 100000000 ≤ (linspace (1 / 100000000) 4 100).getD i 0 :=
    m1grid_lb i hi
  have hdiv : (0 : ℝ) ≤ (1 - p.Delta) / (1 + p.r) :=
    div_nonneg (by linarith) (by linarith)
  have hlb : (1 : ℝ) / 1000000000000 ≤
      (linspace (1 / 100000000) 4 100).getD i 0 + (1 - p.Delta) / (1 + p.r) := by
    linarith
  have hb := hopt (fun x => -(v1 p x ((linspace (1 / 100000000) 4 100).getD i 0) v2_interp))
    (((linspace (1 / 100000000) 4 100).getD i 0) / 2) (1 / 1000000000000)
    (((linspace (1 / 100000000) 4 100).getD i 0) + (1 - p.Delta) / (1 + p.r)) hlb
  exact ⟨lt_of_lt_of_le (by norm_num) hb.1, hb.2⟩

set_option maxRecDepth 8000 in
/-- Claim C3: for a minimizer honoring its box bounds and valid risk and
return parameters (0 ≤ Delta ≤ 1, r > -1), the consumptions stored by solve
are feasible at every grid index: period 2 has 0 < c2s[i] ≤ m2s[i] and period
1 has 0 < c1s[j] ≤ m1s[j] + (1-Delta)/(1+r). -/
theorem stored_consumptions_feasible (p : Par) (opt : Minimizer) (hopt : InBounds opt)
    (hD0 : 0 ≤ p.Delta) (hD1 : p.Delta ≤ 1) (hr : -1 < p.r)
    (i j : ℕ) (hi : i < 500) (hj : j < 100) :
    (0 < (solve p opt).2.2.2.2.2.getD i 0 ∧
     (solve p opt).2.2.2.2.2.getD i 0 ≤ (solve p opt).2.2.2.1.getD i 0) ∧
    (0 < (solve p opt).2.2.1.getD j 0 ∧
     (solve p opt).2.2.1.getD j 0 ≤
       (solve p opt).1.getD j 0 + (1 - p.Delta) / (1 + p.r)) := by
  constructor
  · exact solve_period_2_c_feasible p opt hopt i hi
  · exact solve_period_1_c_feasible p
      (fun q => (RegularGridInterpolator (solve_period_2 p opt).1
        (solve_period_2 p opt).2.1 false none q).getD 0) opt hopt hD1 hr j hj

set_option maxRecDepth 8000 in
/-- Witness for C3: the clamping minimizer on the spec's end-to-end scenario
parameters, at grid indices 0 of both periods. -/
theorem stored_consumptions_feasible_witness :
    (0 < (solve parBase clampMin).2.2.2.2.2.getD 0 0 ∧
     (solve parBase clampMin).2.2.2.2.2.getD 0 0 ≤
       (solve parBase clampMin).2.2.2.1.getD 0 0) ∧
    (0 < (solve parBase clampMin).2.2.1.getD 0 0 ∧
     (solve parBase clampMin).2.2.1.getD 0 0 ≤
       (solve parBase clampMin).1.getD 0 0 + (1 - parBase.Delta) / (1 + parBase.r)) :=
  stored_consumptions_feasible parBase clampMin clampMin_inBounds
    (by norm_num [parBase]) (by norm_num [parBase]) (by norm_num [parBase])
    0 0 (by norm_num) (by norm_num)

end ConsumptionSaving
